import Mathlib

/-!
Verification of the tracing core of `cyclotron` (`src/backend/src/async.rs`).

The file shallowly embeds the instrumentation engine: the single-slot waker
`AtomicTask`, the instrumented future `TracedFuture` with its `TraceState`
state machine and its `poll` routine, and the wakeup relay `Notifier`.

Modelling conventions:
* `SpanId` and timestamps are natural numbers.
* The thread-local `TRACER_STATE` is threaded explicitly as a `TracerState`
  value; `emit` appends to an event list (the sink), `now` reads and advances
  a strictly monotonic clock, and the process-wide `SpanId` counter lives in
  the same record.
* A Rust panic (unwind) is an `Except.error msg` outcome carrying the panic
  message; thread-local state and the state of the future keep the values they
  had at the panic point, exactly as they do across a Rust unwind.
* The `poll` of the inner future (reached through `spawn`/`poll_future_notify`) is
  abstracted as a function `innerPoll` that may read and write the tracer
  state (it may itself be instrumented), update the value of the inner future,
  and either return a poll result or unwind.
-/

namespace Cyclotron

/-- Span identifiers: opaque unique values from a monotonic counter. -/
abbrev SpanId := Nat

/-- Modelled from the spec: `AsyncOutcome` from the `event` module (not under
`src/`): `Success` or `Error(description)`. -/
inductive AsyncOutcome where
  | Success : AsyncOutcome
  | Error : String → AsyncOutcome
deriving DecidableEq

/-- Modelled from the spec: the `TraceEvent` variants of the `event` module
(not under `src/`) that the async instrumentation emits.  The symmetric
`Sync` and `Thread` variants belong to out-of-scope instrumentation points. -/
inductive TraceEvent where
  | AsyncStart (name : String) (id : SpanId) (parent_id : SpanId) (ts : Nat)
  | AsyncOnCPU (id : SpanId) (ts : Nat)
  | AsyncOffCPU (id : SpanId) (ts : Nat)
  | AsyncEnd (id : SpanId) (ts : Nat) (outcome : AsyncOutcome)
  | Wakeup (waking_span : SpanId) (parked_span : SpanId) (ts : Nat)
deriving DecidableEq

/-- Modelled from the spec: the thread-local `TracerState` of the `state`
module (not under `src/`): the currently active span, the re-entrancy guard
for wakeup logging, a monotonic clock, the sink (an append-only event list)
and the process-wide `SpanId` counter. -/
structure TracerState where
  current_span : Option SpanId
  currently_logging_wakeup : Bool
  clock : Nat
  events : List TraceEvent
  next_span_id : Nat
deriving DecidableEq

/-- Modelled from the spec: `now()` returns a monotonic timestamp; advancing
the clock on every read keeps per-thread timestamps strictly increasing. -/
def TracerState.now (st : TracerState) : Nat × TracerState :=
  (st.clock, { st with clock := st.clock + 1 })

/-- Modelled from the spec: `emit(event)` appends the event to the sink. -/
def TracerState.emit (st : TracerState) (e : TraceEvent) : TracerState :=
  { st with events := st.events ++ [e] }

/-- Modelled from the spec: `SpanId::new()` draws from a process-wide
strictly increasing counter. -/
def TracerState.newSpanId (st : TracerState) : SpanId × TracerState :=
  (st.next_span_id, { st with next_span_id := st.next_span_id + 1 })

/-- Modelled from the `futures 0.1` library contract: a `Task` is the wait
handle of one driver context, identified here by a number. -/
structure Task where
  ctx : Nat
deriving DecidableEq

/-- Modelled from the `futures 0.1` library contract:
`task.will_notify_current()` holds exactly when notifying the stored handle
produces a wakeup equivalent to notifying the current context `cur`. -/
def Task.will_notify_current (t cur : Task) : Bool :=
  t == cur

/-- Embedding of `AtomicTask` (async.rs lines 25-46): a mutex-guarded slot holding at most
one parked task.  The mutex makes each operation atomic; operations are
therefore modelled as whole state transformers. -/
structure AtomicTask where
  task : Option Task
deriving DecidableEq

/-- Embedding of `AtomicTask::notify` (async.rs lines 31-35): take the task in
the slot, if
any, and notify it.  The first component is the handle actually woken
(`none` when the cell was empty), the second the cell afterwards. -/
def AtomicTask.notify (a : AtomicTask) : Option Task × AtomicTask :=
  match a.task with
  | some t => (some t, { task := none })
  | none => (none, a)

/-- Embedding of `AtomicTask::park` (async.rs lines 37-45): leave an already-recorded
handle in place when it would notify the current context `cur` anyway,
otherwise record `cur` as the handle to notify next. -/
def AtomicTask.park (a : AtomicTask) (cur : Task) : AtomicTask :=
  match a.task with
  | some t => if t.will_notify_current cur then a else { task := some cur }
  | none => { task := some cur }

/-- Embedding of `TraceState` (async.rs lines 58-68): the lifecycle state of one
instrumented future. -/
inductive TraceState where
  | Created (name : String)
  | Executing (parent : SpanId) (id : SpanId)
  | Resolved
  | Poisoned
deriving DecidableEq

/-- Embedding of `TracedFuture` (async.rs lines 70-73): a lifecycle state plus the
wrapped inner future. -/
structure TracedFuture (F : Type) where
  state : TraceState
  inner : F

/-- Embedding of `TraceFuture::traced` (async.rs lines 48-55): wrap a future under a
name.  The constructor touches no tracer state: it cannot emit an event or
allocate a `SpanId`. -/
def TraceFuture.traced {F : Type} (f : F) (name : String) : TracedFuture F :=
  { state := TraceState.Created name, inner := f }

/-- Embedding of `TracedFuture::into_inner` (async.rs lines 88-92). -/
def TracedFuture.into_inner {F : Type} (tf : TracedFuture F) : F :=
  tf.inner

/-- The result of one successful (non-unwinding) inner poll:
`Ok(Async::Ready(a))`, `Ok(Async::NotReady)` or `Err(e)`. -/
inductive RPoll (α ε : Type) where
  | ready : α → RPoll α ε
  | notReady : RPoll α ε
  | err : ε → RPoll α ε
deriving DecidableEq

/-- How an inner poll call exits: normally with an `RPoll`, or by unwinding
with a panic message. -/
inductive InnerRes (α ε : Type) where
  | polled : RPoll α ε → InnerRes α ε
  | panicked : String → InnerRes α ε
deriving DecidableEq

/-- The behaviour of the poll of the wrapped future: it may consult and
mutate the tracer state (it may be instrumented itself), replaces the inner
future, and exits normally or by unwinding. -/
def InnerPoll (F α ε : Type) : Type :=
  F → TracerState → InnerRes α ε × F × TracerState

/-- The observable outcome of one `TracedFuture::poll` call: the returned
poll value, or the panic message when the call exits by unwinding, together
with the future and the tracer state left behind. -/
structure PollOut (F α ε : Type) where
  result : Except String (RPoll α ε)
  tf : TracedFuture F
  st : TracerState

/-- The state-inspection phase of `TracedFuture::poll` (async.rs lines
100-129): the `match` on `mem::replace(&mut self.state, Poisoned)`.  Returns
the pair `(parent_id, span_id)` or the panic message, the resulting
`TraceState` (the poisoning replacement survives on every panic path, the
match arms reassign `Executing` on the live paths), and the tracer state.

On `Created`, `SpanId::new()` runs before the `expect` on `current_span`
(lines 105-106), so the counter advances even on the missing-parent panic
path. -/
def pollStep1 {F : Type} (tf : TracedFuture F) (st0 : TracerState) :
    Except String (SpanId × SpanId) × TraceState × TracerState :=
  match tf.state with
  | TraceState.Created name =>
      let pn := st0.newSpanId
      match pn.2.current_span with
      | none => (Except.error "Missing parent span", TraceState.Poisoned, pn.2)
      | some parent_id =>
          let pt := pn.2.now
          let st2 := pt.2.emit (TraceEvent.AsyncStart name pn.1 parent_id pt.1)
          (Except.ok (parent_id, pn.1), TraceState.Executing parent_id pn.1, st2)
  | TraceState.Executing parent id =>
      if st0.current_span = some parent then
        (Except.ok (parent, id), TraceState.Executing parent id, st0)
      else
        (Except.error "Parent span changed across execution", TraceState.Poisoned, st0)
  | TraceState.Resolved => (Except.error "Polled after resolved", TraceState.Poisoned, st0)
  | TraceState.Poisoned => (Except.error "Polled after panic", TraceState.Poisoned, st0)

/-- Lines 131-137: emit `AsyncOnCPU{id, now()}` and enter the span. -/
def onPhase (span_id : SpanId) (st : TracerState) : TracerState :=
  let pt := st.now
  let st1 := pt.2.emit (TraceEvent.AsyncOnCPU span_id pt.1)
  { st1 with current_span := some span_id }

/-- Lines 150-157: leave the span (restore `current_span` to the parent)
and emit `AsyncOffCPU{id, now()}`. -/
def offPhase (parent_id span_id : SpanId) (st : TracerState) : TracerState :=
  let st1 := { st with current_span := some parent_id }
  let pt := st1.now
  pt.2.emit (TraceEvent.AsyncOffCPU span_id pt.1)

/-- Embedding of `TracedFuture::poll` (async.rs lines 98-182).  `dbg` is the `Debug`
formatting of the inner error type (`format!` with the debug specifier at
line 174); `ip` is the poll behaviour of the wrapped future.  The per-poll
`Notifier` construction and `park` (lines 141-143) register the current
driver with a fresh `AtomicTask`; the handle is consumed only inside the
inner poll, which `ip` abstracts, so those lines are modelled by
`AtomicTask.park` and `Notifier.run` separately.

An unwind raised inside the state-inspection phase leaves the `Poisoned`
replacement in `self.state`; an unwind raised by the inner poll occurs after
the match arm has already reassigned `Executing` (lines 116-119 and 124), so
it leaves that reassigned state behind. -/
def TracedFuture.poll {F α ε : Type} (dbg : ε → String) (ip : InnerPoll F α ε)
    (tf : TracedFuture F) (st0 : TracerState) : PollOut F α ε :=
  match pollStep1 tf st0 with
  | (Except.error msg, ts1, st1) =>
      { result := Except.error msg, tf := { state := ts1, inner := tf.inner }, st := st1 }
  | (Except.ok (parent_id, span_id), ts1, st1) =>
      let st2 := onPhase span_id st1
      match ip tf.inner st2 with
      | (InnerRes.panicked msg, f1, st3) =>
          { result := Except.error msg, tf := { state := ts1, inner := f1 }, st := st3 }
      | (InnerRes.polled r, f1, st3) =>
          let st4 := offPhase parent_id span_id st3
          match r with
          | RPoll.ready a =>
              let pt := st4.now
              let st5 := pt.2.emit (TraceEvent.AsyncEnd span_id pt.1 AsyncOutcome.Success)
              { result := Except.ok (RPoll.ready a),
                tf := { state := TraceState.Resolved, inner := f1 }, st := st5 }
          | RPoll.err e =>
              let pt := st4.now
              let st5 := pt.2.emit (TraceEvent.AsyncEnd span_id pt.1 (AsyncOutcome.Error (dbg e)))
              { result := Except.ok (RPoll.err e),
                tf := { state := TraceState.Resolved, inner := f1 }, st := st5 }
          | RPoll.notReady =>
              { result := Except.ok RPoll.notReady,
                tf := { state := ts1, inner := f1 }, st := st4 }

/-- Embedding of `Notifier` (async.rs lines 185-188): owns the `AtomicTask` of the
driver to resume and remembers which span parked. -/
structure Notifier where
  parent_task : AtomicTask
  parked_span : SpanId

/-- The first borrow of `Notifier::notify` (async.rs lines 193-208): decide
`should_log` from the re-entrancy guard; when logging, emit
`Wakeup{waking_span: current_span, parked_span, now()}` if the thread has an
active span, then set the guard. -/
def Notifier.logPhase (n : Notifier) (st : TracerState) : Bool × TracerState :=
  let should_log := !st.currently_logging_wakeup
  if should_log then
    let stA :=
      match st.current_span with
      | some cs =>
          let pt := st.now
          pt.2.emit (TraceEvent.Wakeup cs n.parked_span pt.1)
      | none => st
    (true, { stA with currently_logging_wakeup := true })
  else
    (false, st)

/-- The outcome of one `Notifier::notify` invocation: the tracer state, the
cell of the notifier afterwards, and the task handle actually woken
through `AtomicTask::notify` (`none` when the cell was empty). -/
structure NotifyOut where
  st : TracerState
  parent_task : AtomicTask
  woken : Option Task
deriving DecidableEq

/-- Embedding of `Notifier::notify` (async.rs lines 191-217).  `hook` models whatever
synchronous work `Task::notify` performs on this thread when a parked task
is actually woken at line 210 — including, possibly, a nested
`Notifier::notify` invocation.  Afterwards (lines 212-215) the guard is
cleared exactly when this invocation set it. -/
def Notifier.run (n : Notifier) (hook : TracerState → TracerState) (st : TracerState) :
    NotifyOut :=
  let lp := n.logPhase st
  let nt := n.parent_task.notify
  let st2 :=
    match nt.1 with
    | some _ => hook lp.2
    | none => lp.2
  let st3 := if lp.1 then { st2 with currently_logging_wakeup := false } else st2
  { st := st3, parent_task := nt.2, woken := nt.1 }

/-- An inner poll behaviour only ever appends to the event sink (every sink
in the system is append-only). -/
def AppendsOnly {F α ε : Type} (ip : InnerPoll F α ε) : Prop :=
  ∀ f s, ∃ d, ((ip f s).2.2).events = s.events ++ d

/-- Occurrences of `AsyncOnCPU` for span `i` in an event list. -/
def cntOn (i : SpanId) (l : List TraceEvent) : Nat :=
  l.countP fun e => match e with | TraceEvent.AsyncOnCPU j _ => j == i | _ => false

/-- Occurrences of `AsyncOffCPU` for span `i` in an event list. -/
def cntOff (i : SpanId) (l : List TraceEvent) : Nat :=
  l.countP fun e => match e with | TraceEvent.AsyncOffCPU j _ => j == i | _ => false

/- Concrete fixtures used by the witness theorems. -/

/-- A tracer state with an active root span `0` and a clear guard. -/
def stc : TracerState :=
  { current_span := some 0, currently_logging_wakeup := false, clock := 10,
    events := [], next_span_id := 1 }

/-- Trivial debug formatter for a unit error type. -/
def dbgU : Unit → String := fun _ => "()"

/-- An inner poll that immediately returns not-ready. -/
def ipNot : InnerPoll Unit Unit Unit :=
  fun f s => (InnerRes.polled RPoll.notReady, f, s)

/-- An inner poll that fails with a unit error. -/
def ipErr : InnerPoll Unit Unit Unit :=
  fun f s => (InnerRes.polled (RPoll.err ()), f, s)

/-- An inner poll that unwinds with panic message "boom". -/
def ipPanic : InnerPoll Unit Unit Unit :=
  fun f s => (InnerRes.panicked "boom", f, s)

/-- Inverting a successful state-inspection phase: the parent is the calling
`current_span`, the resulting lifecycle state is `Executing parent id`, and
the phase appended at most an `AsyncStart` (never an on/off-CPU event). -/
theorem pollStep1_ok_inv {F : Type} {tf : TracedFuture F} {st0 st1 : TracerState}
    {ts1 : TraceState} {p i : SpanId}
    (h1 : pollStep1 tf st0 = (Except.ok (p, i), ts1, st1)) :
    st0.current_span = some p
    ∧ ts1 = TraceState.Executing p i
    ∧ st1.current_span = some p
    ∧ ∃ pre, st1.events = st0.events ++ pre ∧ cntOn i pre = 0 ∧ cntOff i pre = 0 := by
  rcases tf with ⟨ts0, f0⟩
  cases ts0 with
  | Created name =>
      cases hcs : st0.current_span with
      | none =>
          simp [pollStep1, TracerState.newSpanId, hcs] at h1
      | some q =>
          simp [pollStep1, TracerState.newSpanId, TracerState.now, TracerState.emit, hcs] at h1
          obtain ⟨⟨hq, hi⟩, hts, hst⟩ := h1
          subst hq hi hts hst
          exact ⟨rfl, rfl, rfl, ⟨_, rfl, rfl, rfl⟩⟩
  | Executing parent id =>
      by_cases hcs : st0.current_span = some parent
      · simp [pollStep1, hcs] at h1
        obtain ⟨⟨hq, hi⟩, hts, hst⟩ := h1
        subst hq hi hts hst
        exact ⟨hcs, rfl, hcs, ⟨[], by simp, rfl, rfl⟩⟩
      · simp [pollStep1, hcs] at h1
  | Resolved => simp [pollStep1] at h1
  | Poisoned => simp [pollStep1] at h1

/-- C6: `AtomicTask.notify` takes the recorded handle if present and wakes
it, leaving the cell empty; on an empty cell it wakes nothing and is a
no-op. -/
theorem atomic_task_notify_takes_handle (a : AtomicTask) :
    (∀ t, a.task = some t → a.notify = (some t, { task := none }))
    ∧ (a.task = none → a.notify = (none, a))
    ∧ (a.notify).2.task = none := by
  rcases a with ⟨task⟩
  cases task <;> simp [AtomicTask.notify]

/-- C6 witness: a full cell is drained and woken, an empty cell is a no-op. -/
theorem atomic_task_notify_takes_handle_witness :
    AtomicTask.notify { task := some { ctx := 5 } } = (some { ctx := 5 }, { task := none })
    ∧ AtomicTask.notify { task := none } = (none, { task := none }) :=
  ⟨(atomic_task_notify_takes_handle { task := some { ctx := 5 } }).1 { ctx := 5 } rfl,
   (atomic_task_notify_takes_handle { task := none }).2.1 rfl⟩

/-- C7: `AtomicTask.park` records the handle of the current context unless the
recorded one already produces an equivalent wakeup, and parking twice from
the same context with no intervening notify equals parking once. -/
theorem atomic_task_park_records_unless_equivalent (a : AtomicTask) (cur : Task) :
    (∀ t, a.task = some t → t.will_notify_current cur = true → a.park cur = a)
    ∧ (∀ t, a.task = some t → t.will_notify_current cur = false →
        a.park cur = { task := some cur })
    ∧ (a.task = none → a.park cur = { task := some cur })
    ∧ (a.park cur).park cur = a.park cur := by
  rcases a with ⟨task⟩
  refine ⟨?_, ?_, ?_, ?_⟩
  · intro t ht hw
    cases task with
    | none => cases ht
    | some u => cases ht; simp [AtomicTask.park, hw]
  · intro t ht hw
    cases task with
    | none => cases ht
    | some u => cases ht; simp [AtomicTask.park, hw]
  · intro ht
    cases task with
    | none => simp [AtomicTask.park]
    | some u => cases ht
  · cases task with
    | none => simp [AtomicTask.park, Task.will_notify_current]
    | some u =>
        by_cases hw : u = cur
        · subst hw
          simp [AtomicTask.park, Task.will_notify_current]
        · simp [AtomicTask.park, Task.will_notify_current, hw]

/-- C7 witness: an equivalent handle is left untouched, a different handle
is replaced, an empty cell is filled, and parking is idempotent. -/
theorem atomic_task_park_records_unless_equivalent_witness :
    AtomicTask.park { task := some { ctx := 3 } } { ctx := 3 } = { task := some { ctx := 3 } }
    ∧ AtomicTask.park { task := some { ctx := 3 } } { ctx := 4 } = { task := some { ctx := 4 } }
    ∧ AtomicTask.park { task := none } { ctx := 4 } = { task := some { ctx := 4 } }
    ∧ (AtomicTask.park { task := none } { ctx := 4 }).park { ctx := 4 }
        = AtomicTask.park { task := none } { ctx := 4 } :=
  ⟨(atomic_task_park_records_unless_equivalent { task := some { ctx := 3 } } { ctx := 3 }).1
      { ctx := 3 } rfl (by decide),
   (atomic_task_park_records_unless_equivalent { task := some { ctx := 3 } } { ctx := 4 }).2.1
      { ctx := 3 } rfl (by decide),
   (atomic_task_park_records_unless_equivalent { task := none } { ctx := 4 }).2.2.1 rfl,
   (atomic_task_park_records_unless_equivalent { task := none } { ctx := 4 }).2.2.2⟩

/-- C10: `traced` is inert — it stores the wrapped future unchanged in state
`Created{name}` and, taking no tracer state at all, can neither emit an
event nor allocate a `SpanId`; `into_inner` returns exactly the wrapped
future, so the wrap/unwrap round trip is the identity. -/
theorem traced_inert_roundtrip {F : Type} (f : F) (name : String) :
    TraceFuture.traced f name = { state := TraceState.Created name, inner := f }
    ∧ (TraceFuture.traced f name).state = TraceState.Created name
    ∧ (TraceFuture.traced f name).inner = f
    ∧ (∀ tfx : TracedFuture F, tfx.into_inner = tfx.inner)
    ∧ (TraceFuture.traced f name).into_inner = f :=
  ⟨rfl, rfl, rfl, fun _ => rfl, rfl⟩

/-- C9: polling a terminal future is fatal — `Resolved` aborts with
"Polled after resolved" and `Poisoned` with "Polled after panic"; neither
path touches the tracer state (no event is emitted) and the outcome does
not depend on the behaviour of the inner computation (it is never polled). -/
theorem terminal_poll_fatal {F α ε : Type} (dbg : ε → String) (ip : InnerPoll F α ε)
    (tf : TracedFuture F) (st0 : TracerState) :
    (tf.state = TraceState.Resolved →
        (tf.poll dbg ip st0).result = Except.error "Polled after resolved"
        ∧ (tf.poll dbg ip st0).st = st0
        ∧ ∀ ip2 : InnerPoll F α ε, tf.poll dbg ip2 st0 = tf.poll dbg ip st0)
    ∧ (tf.state = TraceState.Poisoned →
        (tf.poll dbg ip st0).result = Except.error "Polled after panic"
        ∧ (tf.poll dbg ip st0).st = st0
        ∧ ∀ ip2 : InnerPoll F α ε, tf.poll dbg ip2 st0 = tf.poll dbg ip st0) := by
  rcases tf with ⟨ts0, f0⟩
  constructor
  · intro h
    cases h
    refine ⟨rfl, rfl, fun ip2 => rfl⟩
  · intro h
    cases h
    refine ⟨rfl, rfl, fun ip2 => rfl⟩

/-- C9 witness: terminal polls at a concrete state abort with the matching
messages and leave the tracer state untouched. -/
theorem terminal_poll_fatal_witness :
    (TracedFuture.poll dbgU ipNot { state := TraceState.Resolved, inner := () } stc).result
        = Except.error "Polled after resolved"
    ∧ (TracedFuture.poll dbgU ipNot { state := TraceState.Resolved, inner := () } stc).st = stc
    ∧ (TracedFuture.poll dbgU ipNot { state := TraceState.Poisoned, inner := () } stc).result
        = Except.error "Polled after panic"
    ∧ (TracedFuture.poll dbgU ipNot { state := TraceState.Poisoned, inner := () } stc).st = stc :=
  ⟨((terminal_poll_fatal dbgU ipNot { state := TraceState.Resolved, inner := () } stc).1 rfl).1,
   ((terminal_poll_fatal dbgU ipNot { state := TraceState.Resolved, inner := () } stc).1 rfl).2.1,
   ((terminal_poll_fatal dbgU ipNot { state := TraceState.Poisoned, inner := () } stc).2 rfl).1,
   ((terminal_poll_fatal dbgU ipNot { state := TraceState.Poisoned, inner := () } stc).2 rfl).2.1⟩

/-- C8: polling in `Executing{parent, id}` asserts that the calling thread
has `current_span` equal to `Some parent`: on success the state-inspection phase
re-affirms exactly `Executing parent id` and leaves the tracer state alone;
on a mismatch the poll aborts by unwinding (no event is emitted, the inner
computation is never reached) rather than returning a recoverable error. -/
theorem executing_poll_asserts_parent {F α ε : Type} (dbg : ε → String) (ip : InnerPoll F α ε)
    (tf : TracedFuture F) (st0 : TracerState) (p i : SpanId)
    (h : tf.state = TraceState.Executing p i) :
    (st0.current_span = some p →
        pollStep1 tf st0 = (Except.ok (p, i), TraceState.Executing p i, st0))
    ∧ (st0.current_span ≠ some p →
        (tf.poll dbg ip st0).result = Except.error "Parent span changed across execution"
        ∧ (tf.poll dbg ip st0).tf.state = TraceState.Poisoned
        ∧ (tf.poll dbg ip st0).st = st0) := by
  rcases tf with ⟨ts0, f0⟩
  cases h
  constructor
  · intro hcs
    simp [pollStep1, hcs]
  · intro hcs
    simp [TracedFuture.poll, pollStep1, hcs]

/-- C8 witness: with the matching parent span the state is re-affirmed; with
a changed parent span the poll aborts fatally and emits nothing. -/
theorem executing_poll_asserts_parent_witness :
    pollStep1 { state := TraceState.Executing 0 1, inner := () } stc
        = (Except.ok (0, 1), TraceState.Executing 0 1, stc)
    ∧ (TracedFuture.poll dbgU ipNot { state := TraceState.Executing 5 1, inner := () } stc).result
        = Except.error "Parent span changed across execution"
    ∧ (TracedFuture.poll dbgU ipNot { state := TraceState.Executing 5 1, inner := () } stc).tf.state
        = TraceState.Poisoned
    ∧ (TracedFuture.poll dbgU ipNot { state := TraceState.Executing 5 1, inner := () } stc).st
        = stc :=
  ⟨(executing_poll_asserts_parent dbgU ipNot { state := TraceState.Executing 0 1, inner := () }
      stc 0 1 rfl).1 rfl,
   ((executing_poll_asserts_parent dbgU ipNot { state := TraceState.Executing 5 1, inner := () }
      stc 5 1 rfl).2 (by decide)).1,
   ((executing_poll_asserts_parent dbgU ipNot { state := TraceState.Executing 5 1, inner := () }
      stc 5 1 rfl).2 (by decide)).2.1,
   ((executing_poll_asserts_parent dbgU ipNot { state := TraceState.Executing 5 1, inner := () }
      stc 5 1 rfl).2 (by decide)).2.2⟩

/-- After a successful state-inspection phase, when the inner poll only
appends events, the event list of the full poll extends the phase-one events with
`AsyncOnCPU` first. -/
theorem poll_events_extend {F α ε : Type} (dbg : ε → String) (ip : InnerPoll F α ε)
    {tf : TracedFuture F} {st0 st1 : TracerState} {ts1 : TraceState} {p i : SpanId}
    (h1 : pollStep1 tf st0 = (Except.ok (p, i), ts1, st1)) (hap : AppendsOnly ip) :
    ∃ rest, (tf.poll dbg ip st0).st.events
        = st1.events ++ TraceEvent.AsyncOnCPU i st1.clock :: rest := by
  obtain ⟨d, hd⟩ := hap tf.inner (onPhase i st1)
  rcases hip : ip tf.inner (onPhase i st1) with ⟨res, f1, st3⟩
  rw [hip] at hd
  have hd2 : st3.events = st1.events ++ (TraceEvent.AsyncOnCPU i st1.clock :: d) := by
    have hd3 : st3.events = (onPhase i st1).events ++ d := hd
    rw [hd3]
    simp [onPhase, TracerState.now, TracerState.emit]
  cases res with
  | panicked msg =>
      refine ⟨d, ?_⟩
      simp only [TracedFuture.poll, h1, hip]
      simp [hd2]
  | polled r =>
      cases r with
      | ready a =>
          refine ⟨d ++ [TraceEvent.AsyncOffCPU i st3.clock,
            TraceEvent.AsyncEnd i (st3.clock + 1) AsyncOutcome.Success], ?_⟩
          simp only [TracedFuture.poll, h1, hip]
          simp [offPhase, TracerState.now, TracerState.emit, hd2]
      | err e =>
          refine ⟨d ++ [TraceEvent.AsyncOffCPU i st3.clock,
            TraceEvent.AsyncEnd i (st3.clock + 1) (AsyncOutcome.Error (dbg e))], ?_⟩
          simp only [TracedFuture.poll, h1, hip]
          simp [offPhase, TracerState.now, TracerState.emit, hd2]
      | notReady =>
          refine ⟨d ++ [TraceEvent.AsyncOffCPU i st3.clock], ?_⟩
          simp only [TracedFuture.poll, h1, hip]
          simp [offPhase, TracerState.now, TracerState.emit, hd2]

/-- C1: the first poll of a `Created{name}` future allocates a fresh
`SpanId` from the process-wide counter (the current counter value, which
is then advanced), takes the `current_span` of the thread as the parent —
unwinding with "Missing parent span" when there is none, after the counter
draw (lines 105-106) — emits `AsyncStart{id, parent, name, now()}` as the
first event of this poll, and transitions the state to
`Executing{parent, id}`. -/
theorem created_poll_allocates_span_and_starts {F α ε : Type} (dbg : ε → String)
    (ip : InnerPoll F α ε) (tf : TracedFuture F) (st0 : TracerState) (name : String)
    (h : tf.state = TraceState.Created name) :
    (st0.current_span = none →
        (tf.poll dbg ip st0).result = Except.error "Missing parent span"
        ∧ (tf.poll dbg ip st0).tf.state = TraceState.Poisoned
        ∧ (tf.poll dbg ip st0).st.events = st0.events
        ∧ (tf.poll dbg ip st0).st.next_span_id = st0.next_span_id + 1)
    ∧ (∀ p, st0.current_span = some p →
        pollStep1 tf st0
          = (Except.ok (p, st0.next_span_id), TraceState.Executing p st0.next_span_id,
             { st0 with
                 clock := st0.clock + 1,
                 events := st0.events
                   ++ [TraceEvent.AsyncStart name st0.next_span_id p st0.clock],
                 next_span_id := st0.next_span_id + 1 })
        ∧ (AppendsOnly ip →
            ∃ rest, (tf.poll dbg ip st0).st.events
                = st0.events ++ TraceEvent.AsyncStart name st0.next_span_id p st0.clock :: rest)) := by
  rcases tf with ⟨ts0, f0⟩
  cases h
  constructor
  · intro hcs
    simp [TracedFuture.poll, pollStep1, TracerState.newSpanId, hcs]
  · intro p hcs
    have hstep : pollStep1 { state := TraceState.Created name, inner := f0 } st0
        = (Except.ok (p, st0.next_span_id), TraceState.Executing p st0.next_span_id,
           { st0 with
               clock := st0.clock + 1,
               events := st0.events
                 ++ [TraceEvent.AsyncStart name st0.next_span_id p st0.clock],
               next_span_id := st0.next_span_id + 1 }) := by
      simp [pollStep1, TracerState.newSpanId, TracerState.now, TracerState.emit, hcs]
    refine ⟨hstep, fun hap => ?_⟩
    obtain ⟨rest, hrest⟩ := poll_events_extend dbg ip hstep hap
    refine ⟨TraceEvent.AsyncOnCPU st0.next_span_id (st0.clock + 1) :: rest, ?_⟩
    rw [hrest]
    simp

/-- C1 witness: at a concrete state with root span `0`, counter `1` and
clock `10`, the first poll draws span `1`, emits `AsyncStart` first and
moves to `Executing 0 1`; without a root span it unwinds with
"Missing parent span" after advancing the counter. -/
theorem created_poll_allocates_span_and_starts_witness :
    ((TracedFuture.poll dbgU ipNot { state := TraceState.Created "f", inner := () }
        { stc with current_span := none }).result = Except.error "Missing parent span"
      ∧ (TracedFuture.poll dbgU ipNot { state := TraceState.Created "f", inner := () }
        { stc with current_span := none }).tf.state = TraceState.Poisoned
      ∧ (TracedFuture.poll dbgU ipNot { state := TraceState.Created "f", inner := () }
        { stc with current_span := none }).st.events = ({ stc with current_span := none } : TracerState).events
      ∧ (TracedFuture.poll dbgU ipNot { state := TraceState.Created "f", inner := () }
        { stc with current_span := none }).st.next_span_id
          = ({ stc with current_span := none } : TracerState).next_span_id + 1)
    ∧ (pollStep1 { state := TraceState.Created "f", inner := () } stc
        = (Except.ok (0, stc.next_span_id), TraceState.Executing 0 stc.next_span_id,
           { stc with
               clock := stc.clock + 1,
               events := stc.events ++ [TraceEvent.AsyncStart "f" stc.next_span_id 0 stc.clock],
               next_span_id := stc.next_span_id + 1 })
      ∧ ∃ rest, (TracedFuture.poll dbgU ipNot { state := TraceState.Created "f", inner := () }
            stc).st.events
          = stc.events ++ TraceEvent.AsyncStart "f" stc.next_span_id 0 stc.clock :: rest) :=
  ⟨(created_poll_allocates_span_and_starts dbgU ipNot
      { state := TraceState.Created "f", inner := () } { stc with current_span := none } "f" rfl).1
      rfl,
   ((created_poll_allocates_span_and_starts dbgU ipNot
      { state := TraceState.Created "f", inner := () } stc "f" rfl).2 0 rfl).1,
   ((created_poll_allocates_span_and_starts dbgU ipNot
      { state := TraceState.Created "f", inner := () } stc "f" rfl).2 0 rfl).2
      (fun f s => ⟨[], by simp [ipNot]⟩)⟩

/-- C5: when the poll of the inner computation returns an error `e`, the poll
transitions the state to `Resolved`, emits `AsyncOffCPU` and then
`AsyncEnd{id, now(), Error(description)}` with the description obtained by
debug-formatting `e`, and returns that same error to the caller
unaltered. -/
theorem inner_error_recorded_and_reraised {F α ε : Type} (dbg : ε → String)
    (ip : InnerPoll F α ε) (tf : TracedFuture F) (st0 st1 st2 : TracerState)
    (ts1 : TraceState) (p i : SpanId) (e : ε) (f1 : F)
    (h1 : pollStep1 tf st0 = (Except.ok (p, i), ts1, st1))
    (h2 : ip tf.inner (onPhase i st1) = (InnerRes.polled (RPoll.err e), f1, st2)) :
    (tf.poll dbg ip st0).result = Except.ok (RPoll.err e)
    ∧ (tf.poll dbg ip st0).tf.state = TraceState.Resolved
    ∧ (tf.poll dbg ip st0).st.events
        = st2.events ++ [TraceEvent.AsyncOffCPU i st2.clock,
            TraceEvent.AsyncEnd i (st2.clock + 1) (AsyncOutcome.Error (dbg e))] := by
  simp only [TracedFuture.poll, h1, h2]
  simp [offPhase, TracerState.now, TracerState.emit]

/-- C5 witness: a concrete erroring inner poll is re-raised unaltered,
resolves the future, and records `AsyncEnd` with the formatted error. -/
theorem inner_error_recorded_and_reraised_witness :
    (TracedFuture.poll dbgU ipErr { state := TraceState.Executing 0 1, inner := () } stc).result
        = Except.ok (RPoll.err ())
    ∧ (TracedFuture.poll dbgU ipErr { state := TraceState.Executing 0 1, inner := () } stc).tf.state
        = TraceState.Resolved
    ∧ (TracedFuture.poll dbgU ipErr { state := TraceState.Executing 0 1, inner := () } stc).st.events
        = (onPhase 1 stc).events ++ [TraceEvent.AsyncOffCPU 1 (onPhase 1 stc).clock,
            TraceEvent.AsyncEnd 1 ((onPhase 1 stc).clock + 1) (AsyncOutcome.Error "()")] :=
  inner_error_recorded_and_reraised dbgU ipErr
    { state := TraceState.Executing 0 1, inner := () } stc stc (onPhase 1 stc)
    (TraceState.Executing 0 1) 0 1 () ()
    (by simp [pollStep1, stc]) rfl

/-- An unsuccessful state-inspection phase always leaves the `Poisoned`
replacement from `mem::replace` in place: the panic fires before the match
arm would have reassigned the state. -/
theorem pollStep1_err_poisons {F : Type} {tf : TracedFuture F} {st0 st1 : TracerState}
    {msg : String} {ts1 : TraceState}
    (h1 : pollStep1 tf st0 = (Except.error msg, ts1, st1)) : ts1 = TraceState.Poisoned := by
  rcases tf with ⟨ts0, f0⟩
  cases ts0 with
  | Created name =>
      cases hcs : st0.current_span with
      | none =>
          simp [pollStep1, TracerState.newSpanId, hcs] at h1
          simp_all
      | some q =>
          simp [pollStep1, TracerState.newSpanId, TracerState.now, TracerState.emit, hcs] at h1
  | Executing parent id =>
      by_cases hcs : st0.current_span = some parent
      · simp [pollStep1, hcs] at h1
      · simp [pollStep1, hcs] at h1
        simp_all
  | Resolved =>
      simp [pollStep1] at h1
      simp_all
  | Poisoned =>
      simp [pollStep1] at h1
      simp_all

/-- C4 counterexample: on a concrete first poll whose inner computation
unwinds, the unwind is propagated (`"boom"`), but the future is left in
`Executing 0 1` — not `Poisoned` — because the match arm reassigned the
state (lines 116-119) before the inner poll ran. -/
theorem inner_panic_not_poisoned_cex :
    (TracedFuture.poll dbgU ipPanic { state := TraceState.Created "f", inner := () } stc).result
        = Except.error "boom"
    ∧ (TracedFuture.poll dbgU ipPanic { state := TraceState.Created "f", inner := () } stc).tf.state
        = TraceState.Executing 0 1
    ∧ ¬ (TracedFuture.poll dbgU ipPanic { state := TraceState.Created "f", inner := () } stc).tf.state
        = TraceState.Poisoned :=
  ⟨rfl, rfl, by decide⟩

/-- C4 (amended): an unwind raised by the instrumentation checks of the
state-inspection phase (missing parent span, parent-span mismatch, polled
after resolved, polled after panic) leaves the future `Poisoned` and is
propagated to the caller unchanged, and a subsequent poll of a `Poisoned`
future fails fatally with "Polled after panic" without touching the tracer
state; an unwind raised by the poll of the inner computation is propagated
to the caller unchanged but leaves the future in `Executing{parent, id}`,
not `Poisoned`. -/
theorem unwind_semantics_of_poll {F α ε : Type} (dbg : ε → String) (ip : InnerPoll F α ε) :
    (∀ (tf : TracedFuture F) (st0 st1 : TracerState) (msg : String) (ts1 : TraceState),
        pollStep1 tf st0 = (Except.error msg, ts1, st1) →
          ts1 = TraceState.Poisoned
          ∧ (tf.poll dbg ip st0).result = Except.error msg
          ∧ (tf.poll dbg ip st0).tf.state = TraceState.Poisoned)
    ∧ (∀ (tf : TracedFuture F) (st0 st1 st3 : TracerState) (ts1 : TraceState) (p i : SpanId)
        (msg : String) (f1 : F),
        pollStep1 tf st0 = (Except.ok (p, i), ts1, st1) →
        ip tf.inner (onPhase i st1) = (InnerRes.panicked msg, f1, st3) →
          (tf.poll dbg ip st0).result = Except.error msg
          ∧ (tf.poll dbg ip st0).tf.state = TraceState.Executing p i
          ∧ (tf.poll dbg ip st0).st = st3)
    ∧ (∀ (tf : TracedFuture F) (st0 : TracerState),
        tf.state = TraceState.Poisoned →
          (tf.poll dbg ip st0).result = Except.error "Polled after panic"
          ∧ (tf.poll dbg ip st0).st = st0) := by
  refine ⟨?_, ?_, ?_⟩
  · intro tf st0 st1 msg ts1 h1
    have hpo := pollStep1_err_poisons h1
    subst hpo
    refine ⟨rfl, ?_, ?_⟩ <;> simp only [TracedFuture.poll, h1]
  · intro tf st0 st1 st3 ts1 p i msg f1 h1 h2
    have hts := (pollStep1_ok_inv h1).2.1
    subst hts
    refine ⟨?_, ?_, ?_⟩ <;> simp only [TracedFuture.poll, h1, h2]
  · intro tf st0 h
    rcases tf with ⟨ts0, f0⟩
    cases h
    exact ⟨rfl, rfl⟩

/-- C4 witness: concrete instances of all three unwinding behaviours. -/
theorem unwind_semantics_of_poll_witness :
    ((TracedFuture.poll dbgU ipNot { state := TraceState.Resolved, inner := () } stc).result
        = Except.error "Polled after resolved"
      ∧ (TracedFuture.poll dbgU ipNot { state := TraceState.Resolved, inner := () } stc).tf.state
        = TraceState.Poisoned)
    ∧ ((TracedFuture.poll dbgU ipPanic { state := TraceState.Created "g", inner := () } stc).result
        = Except.error "boom"
      ∧ (TracedFuture.poll dbgU ipPanic { state := TraceState.Created "g", inner := () } stc).tf.state
        = TraceState.Executing 0 1)
    ∧ (TracedFuture.poll dbgU ipNot { state := TraceState.Poisoned, inner := () } stc).result
        = Except.error "Polled after panic" := by
  have h1 := (unwind_semantics_of_poll dbgU ipNot).1
      { state := TraceState.Resolved, inner := () } stc stc "Polled after resolved"
      TraceState.Poisoned rfl
  have h2 := (unwind_semantics_of_poll dbgU ipPanic).2.1
      { state := TraceState.Created "g", inner := () } stc
      { stc with
          clock := stc.clock + 1,
          events := stc.events ++ [TraceEvent.AsyncStart "g" stc.next_span_id 0 stc.clock],
          next_span_id := stc.next_span_id + 1 }
      (onPhase 1 { stc with
          clock := stc.clock + 1,
          events := stc.events ++ [TraceEvent.AsyncStart "g" stc.next_span_id 0 stc.clock],
          next_span_id := stc.next_span_id + 1 })
      (TraceState.Executing 0 1) 0 1 "boom" ()
      (by simp [pollStep1, stc, TracerState.newSpanId, TracerState.now, TracerState.emit]) rfl
  have h3 := (unwind_semantics_of_poll dbgU ipNot).2.2
      { state := TraceState.Poisoned, inner := () } stc rfl
  exact ⟨⟨h1.2.1, h1.2.2⟩, ⟨h2.1, h2.2.1⟩, h3.1⟩

/-- C2: a poll call that returns normally emits exactly one
`AsyncOnCPU{id}` and one `AsyncOffCPU{id}` around the single inner poll —
the state-inspection prefix and the terminal suffix contain no on/off-CPU
event for `id` — and `current_span` is restored to the exact value it held
before the call. -/
theorem poll_brackets_inner_and_restores_span {F α ε : Type} (dbg : ε → String)
    (ip : InnerPoll F α ε) (tf : TracedFuture F) (st0 st1 st2 : TracerState)
    (ts1 : TraceState) (p i : SpanId) (r : RPoll α ε) (f1 : F) (d : List TraceEvent)
    (h1 : pollStep1 tf st0 = (Except.ok (p, i), ts1, st1))
    (h2 : ip tf.inner (onPhase i st1) = (InnerRes.polled r, f1, st2))
    (h3 : st2.events = (onPhase i st1).events ++ d) :
    ∃ pre post,
      st1.events = st0.events ++ pre
      ∧ (tf.poll dbg ip st0).st.events
          = st0.events ++ (pre ++ TraceEvent.AsyncOnCPU i st1.clock
              :: (d ++ TraceEvent.AsyncOffCPU i st2.clock :: post))
      ∧ cntOn i pre = 0 ∧ cntOff i pre = 0 ∧ cntOn i post = 0 ∧ cntOff i post = 0
      ∧ st0.current_span = some p
      ∧ (tf.poll dbg ip st0).st.current_span = some p
      ∧ (tf.poll dbg ip st0).st.current_span = st0.current_span
      ∧ (tf.poll dbg ip st0).result = Except.ok r := by
  obtain ⟨hcs, hts, hcs1, pre, hpre, hOn, hOff⟩ := pollStep1_ok_inv h1
  have hd2 : st2.events = st1.events ++ (TraceEvent.AsyncOnCPU i st1.clock :: d) := by
    rw [h3]
    simp [onPhase, TracerState.now, TracerState.emit]
  cases r with
  | ready a =>
      refine ⟨pre, [TraceEvent.AsyncEnd i (st2.clock + 1) AsyncOutcome.Success],
        hpre, ?_, hOn, hOff, by simp [cntOn], by simp [cntOff], hcs, ?_, ?_, ?_⟩
        <;> simp only [TracedFuture.poll, h1, h2]
      · simp [offPhase, TracerState.now, TracerState.emit, hd2, hpre]
      · simp [offPhase, TracerState.now, TracerState.emit]
      · simp [offPhase, TracerState.now, TracerState.emit, hcs]
  | err e =>
      refine ⟨pre, [TraceEvent.AsyncEnd i (st2.clock + 1) (AsyncOutcome.Error (dbg e))],
        hpre, ?_, hOn, hOff, by simp [cntOn], by simp [cntOff], hcs, ?_, ?_, ?_⟩
        <;> simp only [TracedFuture.poll, h1, h2]
      · simp [offPhase, TracerState.now, TracerState.emit, hd2, hpre]
      · simp [offPhase, TracerState.now, TracerState.emit]
      · simp [offPhase, TracerState.now, TracerState.emit, hcs]
  | notReady =>
      refine ⟨pre, [], hpre, ?_, hOn, hOff, by simp [cntOn], by simp [cntOff], hcs, ?_, ?_, ?_⟩
        <;> simp only [TracedFuture.poll, h1, h2]
      · simp [offPhase, TracerState.now, TracerState.emit, hd2, hpre]
      · simp [offPhase, TracerState.now, TracerState.emit]
      · simp [offPhase, TracerState.now, TracerState.emit, hcs]

/-- C2 witness: a concrete not-ready poll emits exactly the
`AsyncOnCPU`/`AsyncOffCPU` pair around an inner poll that emits nothing,
and restores `current_span`. -/
theorem poll_brackets_inner_and_restores_span_witness :
    ∃ pre post,
      stc.events = stc.events ++ pre
      ∧ (TracedFuture.poll dbgU ipNot { state := TraceState.Executing 0 1, inner := () }
            stc).st.events
          = stc.events ++ (pre ++ TraceEvent.AsyncOnCPU 1 stc.clock
              :: (([] : List TraceEvent) ++ TraceEvent.AsyncOffCPU 1 (onPhase 1 stc).clock :: post))
      ∧ cntOn 1 pre = 0 ∧ cntOff 1 pre = 0 ∧ cntOn 1 post = 0 ∧ cntOff 1 post = 0
      ∧ stc.current_span = some 0
      ∧ (TracedFuture.poll dbgU ipNot { state := TraceState.Executing 0 1, inner := () }
            stc).st.current_span = some 0
      ∧ (TracedFuture.poll dbgU ipNot { state := TraceState.Executing 0 1, inner := () }
            stc).st.current_span = stc.current_span
      ∧ (TracedFuture.poll dbgU ipNot { state := TraceState.Executing 0 1, inner := () }
            stc).result = Except.ok RPoll.notReady :=
  poll_brackets_inner_and_restores_span dbgU ipNot
    { state := TraceState.Executing 0 1, inner := () } stc stc (onPhase 1 stc)
    (TraceState.Executing 0 1) 0 1 RPoll.notReady () []
    (by simp [pollStep1, stc]) rfl (by simp)

/-- A `Notifier` invocation made while the re-entrancy guard is set, whose
woken task performs no further work, changes nothing in the tracer state. -/
theorem notifier_run_id_of_guard {m : Notifier} {s : TracerState}
    (hg : s.currently_logging_wakeup = true) :
    (m.run (fun x => x) s).st = s := by
  rcases hnt : m.parent_task.notify with ⟨w, a2⟩
  cases w <;> simp [Notifier.run, Notifier.logPhase, hg, hnt]

/-- Evaluation of one `Notifier` invocation whose log phase logged and whose
cell held a parked task: the synchronous work `hook` of the woken task runs on
the logged state, and the guard set by this invocation is cleared at the
end. -/
theorem notifier_run_eq (n : Notifier) (hook : TracerState → TracerState)
    (st stG : TracerState) (t : Task) (a2 : AtomicTask)
    (hlog : n.logPhase st = (true, stG))
    (hnt : n.parent_task.notify = (some t, a2)) :
    n.run hook st = { st := { hook stG with currently_logging_wakeup := false },
                      parent_task := a2, woken := some t } := by
  simp [Notifier.run, hlog, hnt]

/-- C3: every `Notifier` invocation forwards to the owned
`AtomicTask.notify` exactly once (the cell afterwards and the woken handle
are exactly those produced by one `AtomicTask.notify` call, guard or not);
with the guard already set the invocation adds nothing of its own to the
tracer state; with the guard clear and an active `current_span` it emits
`Wakeup{waking_span, parked_span, now()}` and sets the guard for the
duration; and a nested invocation triggered synchronously from inside an
outer one emits no `Wakeup` — the combined run emits exactly the outer
`Wakeup` — while both invocations reach their own `AtomicTask.notify`. -/
theorem notifier_guard_and_forward (n : Notifier) (hook : TracerState → TracerState)
    (st : TracerState) :
    ((n.run hook st).parent_task = (n.parent_task.notify).2
      ∧ (n.run hook st).woken = (n.parent_task.notify).1)
    ∧ (st.currently_logging_wakeup = true →
        ((n.parent_task.notify).1 = none → (n.run hook st).st = st)
        ∧ (∀ t, (n.parent_task.notify).1 = some t → (n.run hook st).st = hook st))
    ∧ (st.currently_logging_wakeup = false →
        ∀ w, st.current_span = some w →
          (n.logPhase st).2.events = st.events ++ [TraceEvent.Wakeup w n.parked_span st.clock]
          ∧ (n.logPhase st).2.currently_logging_wakeup = true)
    ∧ (∀ m : Notifier, st.currently_logging_wakeup = false →
        ∀ w, st.current_span = some w →
        ∀ t, n.parent_task.task = some t →
          (n.run (fun s => (m.run (fun x => x) s).st) st).st.events
              = st.events ++ [TraceEvent.Wakeup w n.parked_span st.clock]
          ∧ (n.run (fun s => (m.run (fun x => x) s).st) st).st.currently_logging_wakeup = false
          ∧ (n.run (fun s => (m.run (fun x => x) s).st) st).parent_task = { task := none }
          ∧ (∀ s, (m.run (fun x => x) s).parent_task = (m.parent_task.notify).2)) := by
  refine ⟨?_, ?_, ?_, ?_⟩
  · rcases hnt : n.parent_task.notify with ⟨w, a2⟩
    cases w <;> simp [Notifier.run, hnt]
  · intro hg
    constructor
    · intro hnone
      rcases hnt : n.parent_task.notify with ⟨w, a2⟩
      rw [hnt] at hnone
      simp only at hnone
      subst hnone
      simp [Notifier.run, Notifier.logPhase, hg, hnt]
    · intro t hsome
      rcases hnt : n.parent_task.notify with ⟨w, a2⟩
      rw [hnt] at hsome
      simp only at hsome
      subst hsome
      simp [Notifier.run, Notifier.logPhase, hg, hnt]
  · intro hg w hcsp
    simp [Notifier.logPhase, hg, hcsp, TracerState.now, TracerState.emit]
  · intro m hg w hcsp t ht
    have hnt : n.parent_task.notify = (some t, { task := none }) := by
      simp [AtomicTask.notify, ht]
    have hlog : n.logPhase st
        = (true, { current_span := some w, currently_logging_wakeup := true,
                   clock := st.clock + 1,
                   events := st.events ++ [TraceEvent.Wakeup w n.parked_span st.clock],
                   next_span_id := st.next_span_id }) := by
      simp [Notifier.logPhase, hg, hcsp, TracerState.now, TracerState.emit]
    have hookid : (m.run (fun x => x)
        { current_span := some w, currently_logging_wakeup := true,
          clock := st.clock + 1,
          events := st.events ++ [TraceEvent.Wakeup w n.parked_span st.clock],
          next_span_id := st.next_span_id }).st
        = { current_span := some w, currently_logging_wakeup := true,
            clock := st.clock + 1,
            events := st.events ++ [TraceEvent.Wakeup w n.parked_span st.clock],
            next_span_id := st.next_span_id } :=
      notifier_run_id_of_guard rfl
    have hrun := notifier_run_eq n (fun s => (m.run (fun x => x) s).st) st
      { current_span := some w, currently_logging_wakeup := true,
        clock := st.clock + 1,
        events := st.events ++ [TraceEvent.Wakeup w n.parked_span st.clock],
        next_span_id := st.next_span_id }
      t { task := none } hlog hnt
    refine ⟨?_, ?_, ?_, ?_⟩
    · rw [hrun]
      simp only [hookid]
    · rw [hrun]
    · rw [hrun]
    · intro s
      rcases hmn : m.parent_task.notify with ⟨w2, a3⟩
      cases w2 <;> simp [Notifier.run, hmn]

/-- C3 witness: concrete instances — with the guard set no event is added
(empty or full cell); with the guard clear the outer invocation logs one
`Wakeup`; and a concrete nested invocation (outer notifier with a parked
task and parked span 1, inner with parked span 2) emits exactly the outer
`Wakeup`, clears the guard, and drains both cells. -/
theorem notifier_guard_and_forward_witness :
    (Notifier.run { parent_task := { task := none }, parked_span := 3 } (fun x => x)
        { stc with currently_logging_wakeup := true }).st
      = { stc with currently_logging_wakeup := true }
    ∧ (Notifier.run { parent_task := { task := some { ctx := 7 } }, parked_span := 1 }
        (fun x => x) { stc with currently_logging_wakeup := true }).st
      = { stc with currently_logging_wakeup := true }
    ∧ (Notifier.logPhase { parent_task := { task := some { ctx := 7 } }, parked_span := 1 }
        stc).2.events = stc.events ++ [TraceEvent.Wakeup 0 1 stc.clock]
    ∧ ((Notifier.run { parent_task := { task := some { ctx := 7 } }, parked_span := 1 }
        (fun s => (Notifier.run { parent_task := { task := some { ctx := 8 } }, parked_span := 2 }
          (fun x => x) s).st) stc).st.events
      = stc.events ++ [TraceEvent.Wakeup 0 1 stc.clock])
    ∧ (Notifier.run { parent_task := { task := some { ctx := 7 } }, parked_span := 1 }
        (fun s => (Notifier.run { parent_task := { task := some { ctx := 8 } }, parked_span := 2 }
          (fun x => x) s).st) stc).st.currently_logging_wakeup = false
    ∧ (Notifier.run { parent_task := { task := some { ctx := 7 } }, parked_span := 1 }
        (fun s => (Notifier.run { parent_task := { task := some { ctx := 8 } }, parked_span := 2 }
          (fun x => x) s).st) stc).parent_task = { task := none }
    ∧ (∀ s, (Notifier.run { parent_task := { task := some { ctx := 8 } }, parked_span := 2 }
          (fun x => x) s).parent_task
        = ((AtomicTask.notify { task := some { ctx := 8 } })).2) := by
  have hempty := ((notifier_guard_and_forward
      { parent_task := { task := none }, parked_span := 3 } (fun x => x)
      { stc with currently_logging_wakeup := true }).2.1 rfl).1 rfl
  have hfull := ((notifier_guard_and_forward
      { parent_task := { task := some { ctx := 7 } }, parked_span := 1 } (fun x => x)
      { stc with currently_logging_wakeup := true }).2.1 rfl).2 { ctx := 7 } rfl
  have hlog := ((notifier_guard_and_forward
      { parent_task := { task := some { ctx := 7 } }, parked_span := 1 } (fun x => x)
      stc).2.2.1 rfl 0 rfl).1
  have hnest := (notifier_guard_and_forward
      { parent_task := { task := some { ctx := 7 } }, parked_span := 1 }
      (fun s => (Notifier.run { parent_task := { task := some { ctx := 8 } }, parked_span := 2 }
        (fun x => x) s).st) stc).2.2.2
      { parent_task := { task := some { ctx := 8 } }, parked_span := 2 }
      rfl 0 rfl { ctx := 7 } rfl
  exact ⟨hempty, hfull, hlog, hnest.1, hnest.2.1, hnest.2.2.1, hnest.2.2.2⟩

end Cyclotron
